import Mathlib

/-!
Verification of the relay session subsystem of the http-relay package.

This file is a shallow embedding of `relay.go`.  Go values are modelled as
follows: byte slices become `List Nat`; `http.Header` and `url.Values`
(order-preserving multimaps) become association lists from key to value list;
Go `error` values become `Option String` (`none` is a nil error); a
`*url.URL` pointer becomes `Option String`, the URL being represented by its
serialized text (`none` is a nil pointer).  Streaming bodies
(`io.ReadCloser`) are modelled by their full contents together with the read
error and the close error the stream would report.  The package-level
`sockets` map becomes an explicit association list passed through the
operations, and effects of a procedure (stop-channel sends, writes to the
real response writer) are returned as explicit data.
-/

namespace Relay

/-- Header multimaps (`http.Header`, `url.Values`): an ordered association
list from key to the list of values for that key. -/
abbrev HeaderMap := List (String × List String)

/-- Model of `url.Parse` as used by `http.NewRequest`: parsing the serialized
text of a URL succeeds and preserves the text; it fails on ASCII control
characters, which is the granularity relay.go depends on. -/
def urlParse (s : String) : Option String :=
  if s.toList.any (fun c => decide (c.toNat < 32) || decide (c.toNat = 127)) then none
  else some s

/-- Model of `http.Request`.  `url` is the serialized URL text (`none` models
a nil `*url.URL`).  The body stream is modelled by its contents plus the
error, if any, that `ioutil.ReadAll` and `Body.Close()` would return. -/
structure HttpRequest where
  method : String
  url : Option String
  proto : String
  protoMajor : Nat
  protoMinor : Nat
  header : HeaderMap
  bodyBytes : List Nat
  bodyReadErr : Option String
  bodyCloseErr : Option String
  contentLength : Int
  transferEncoding : List String
  close : Bool
  host : String
  form : HeaderMap
  trailer : HeaderMap
  remoteAddr : String
  requestURI : String
deriving DecidableEq

/-- The `request` envelope struct of relay.go (relay.go lines 42-59): the
JSON-serializable carrier of an HTTP request, with a carried `Error` field. -/
structure request where
  Method : String
  URL : Option String
  Proto : String
  ProtoMajor : Nat
  ProtoMinor : Nat
  Header : HeaderMap
  Body : List Nat
  ContentLength : Int
  TransferEncoding : List String
  Close : Bool
  Host : String
  Form : HeaderMap
  Trailer : HeaderMap
  RemoteAddr : String
  RequestURI : String
  Error : Option String
deriving DecidableEq

/-- Embedding of `fromRequest` (relay.go lines 61-89).  All fields are copied
verbatim and `Error` starts as the `err` argument; then the body is buffered
(`re.Body, err = ioutil.ReadAll(r.Body)`, `err2 := r.Body.Close()`): a read
error is stored on `Error` first, otherwise a close error is stored. -/
def fromRequest (r : HttpRequest) (err : Option String) : request :=
  let re : request :=
    { Method := r.method
      URL := r.url
      Proto := r.proto
      ProtoMajor := r.protoMajor
      ProtoMinor := r.protoMinor
      Header := r.header
      Body := []
      ContentLength := r.contentLength
      TransferEncoding := r.transferEncoding
      Close := r.close
      Host := r.host
      Form := r.form
      Trailer := r.trailer
      RemoteAddr := r.remoteAddr
      RequestURI := r.requestURI
      Error := err }
  let re := { re with Body := r.bodyBytes }
  let readErr := r.bodyReadErr
  let closeErr := r.bodyCloseErr
  if readErr.isSome then { re with Error := readErr }
  else if closeErr.isSome then { re with Error := closeErr }
  else re

/-- Model of `http.NewRequest(method, urlStr, bytes.NewReader(body))` as in
the go1.4-era standard library: parse the URL (failure is returned as an
error), then build a request with protocol defaults, an empty header map and
the buffered body; `ContentLength` is the length of the byte reader.  The
`Host` component of the parsed URL is not recoverable from the
serialized-text URL model, and `toRequest` overwrites `host` in every case,
so it is left empty here. -/
def NewRequest (method urlStr : String) (bodyBytes : List Nat) :
    Except String HttpRequest :=
  match urlParse urlStr with
  | none => Except.error "net/url: parse error"
  | some u =>
      Except.ok
        { method := method
          url := some u
          proto := "HTTP/1.1"
          protoMajor := 1
          protoMinor := 1
          header := []
          bodyBytes := bodyBytes
          bodyReadErr := none
          bodyCloseErr := none
          contentLength := Int.ofNat bodyBytes.length
          transferEncoding := []
          close := false
          host := ""
          form := []
          trailer := []
          remoteAddr := ""
          requestURI := "" }

/-- Result of `toRequest`: the Go method returns `(*http.Request, error)`,
and additionally it can panic with a nil-pointer dereference when it
evaluates `r.URL.String()` on a nil `URL` (relay.go line 96).  `nilDeref`
models that runtime panic. -/
inductive ToRequestResult where
  | nilDeref
  | err (e : String)
  | ok (re : HttpRequest)
deriving DecidableEq

/-- Embedding of `(*request).toRequest` (relay.go lines 91-113): fail with the
carried error if present; otherwise call `http.NewRequest(r.Method,
r.URL.String(), bytes.NewReader(r.Body))` — a nil-pointer dereference when
`URL` is nil — and on success overwrite every remaining field verbatim from
the envelope. -/
def request.toRequest (r : request) : ToRequestResult :=
  match r.Error with
  | some e => ToRequestResult.err e
  | none =>
      match r.URL with
      | none => ToRequestResult.nilDeref
      | some u =>
          match NewRequest r.Method u r.Body with
          | Except.error e => ToRequestResult.err e
          | Except.ok re0 =>
              ToRequestResult.ok
                { re0 with
                  proto := r.Proto
                  protoMajor := r.ProtoMajor
                  protoMinor := r.ProtoMinor
                  header := r.Header
                  contentLength := r.ContentLength
                  transferEncoding := r.TransferEncoding
                  close := r.Close
                  host := r.Host
                  form := r.Form
                  trailer := r.Trailer
                  remoteAddr := r.RemoteAddr
                  requestURI := r.RequestURI }

/-- Model of `http.Response`, with the body stream modelled as for
`HttpRequest`. -/
structure HttpResponse where
  status : String
  statusCode : Int
  proto : String
  protoMajor : Nat
  protoMinor : Nat
  header : HeaderMap
  bodyBytes : List Nat
  bodyReadErr : Option String
  bodyCloseErr : Option String
  contentLength : Int
  transferEncoding : List String
  close : Bool
  trailer : HeaderMap
  request : Option HttpRequest
deriving DecidableEq

/-- The `response` envelope struct of relay.go (relay.go lines 116-130). -/
structure response where
  Status : String
  StatusCode : Int
  Proto : String
  ProtoMajor : Nat
  ProtoMinor : Nat
  Header : HeaderMap
  Body : List Nat
  ContentLength : Int
  TransferEncoding : List String
  Close : Bool
  Trailer : HeaderMap
  Request : Option request
  Error : Option String
deriving DecidableEq

/-- Embedding of `fromResponse` (relay.go lines 132-160).  `Error` starts as
the `err` argument; then the Go code reassigns the local variable `err` to
the `ioutil.ReadAll` error (modelled by shadowing) and sets `err2` to the
`Body.Close()` error.  On a read error it stores `err` and returns; on a
close error it logs `err2` but stores `err` (relay.go line 155 — note this is
the read error, which is nil on that path) and returns; otherwise it embeds
the originating request.  In Go a nil `r.Request` would make the final
`fromRequest` call panic; the option-map models the non-nil case, and both
error branches return before reaching it, leaving `Request` nil. -/
def fromResponse (r : HttpResponse) (err : Option String) : response :=
  let re : response :=
    { Status := r.status
      StatusCode := r.statusCode
      Proto := r.proto
      ProtoMajor := r.protoMajor
      ProtoMinor := r.protoMinor
      Header := r.header
      Body := []
      ContentLength := r.contentLength
      TransferEncoding := r.transferEncoding
      Close := r.close
      Trailer := r.trailer
      Request := none
      Error := err }
  let re := { re with Body := r.bodyBytes }
  let err := r.bodyReadErr
  let err2 := r.bodyCloseErr
  if err.isSome then { re with Error := err }
  else if err2.isSome then { re with Error := err }
  else { re with Request := r.request.map (fun rq => fromRequest rq none) }

/-- The `ResponseWriter` capture struct of relay.go (relay.go lines 179-183):
an in-memory stand-in for `http.ResponseWriter`. -/
structure ResponseWriter where
  Head : HeaderMap
  Body : List Nat
  StatusCode : Int
deriving DecidableEq

/-- Embedding of `(*ResponseWriter).Write` (relay.go lines 203-206): appends
to the buffered body and reports the input length with a nil error. -/
def ResponseWriter.Write (r : ResponseWriter) (d : List Nat) :
    ResponseWriter × Nat × Option String :=
  ({ r with Body := r.Body ++ d }, d.length, none)

/-- Embedding of `(*ResponseWriter).WriteHeader` (relay.go lines 213-215):
records the status code (last write wins). -/
def ResponseWriter.WriteHeader (r : ResponseWriter) (s : Int) : ResponseWriter :=
  { r with StatusCode := s }

/-- One operation performed on the real (external) `http.ResponseWriter`. -/
inductive WriterOp where
  | writeHeader (code : Int)
  | write (d : List Nat)
  | addHeader (k v : String)
deriving DecidableEq

/-- The header-copy loop of `copyTo` (relay.go lines 222-226): one
`w.Header().Add(k, v)` operation per buffered header value, in the
(determinized) iteration order of the multimap. -/
def headerAddOps (h : HeaderMap) : List WriterOp :=
  h.foldr (fun kv acc => kv.2.map (fun v => WriterOp.addHeader kv.1 v) ++ acc) []

/-- Embedding of `(*ResponseWriter).copyTo` (relay.go lines 217-228) as the
trace of operations it performs on the real writer `w`, in program order:
first `w.WriteHeader(r.StatusCode)` (unconditionally, even when the recorded
code is still the zero value), then `w.Write(r.Body)`, then the
`w.Header().Add` loop.  The Go return value only propagates an error of the
sink itself and does not depend on `r`. -/
def ResponseWriter.copyTo (r : ResponseWriter) : List WriterOp :=
  WriterOp.writeHeader r.StatusCode :: WriterOp.write r.Body :: headerAddOps r.Head

/-- The package-level `sockets` registry (relay.go line 230), modelled as an
association list from session name to the identifier of the registered
`wsRelayServer` session. -/
abbrev Registry := List (String × Nat)

/-- Go map lookup `sockets[name]` on the association-list registry. -/
def lookupS : Registry → String → Option Nat
  | [], _ => none
  | (k, v) :: rest, name => if k = name then some v else lookupS rest name

/-- Go map assignment `sockets[name] = w` on the association-list registry:
replaces the entry for `name` if one exists, otherwise appends it. -/
def insertS : Registry → String → Nat → Registry
  | [], name, wid => [(name, wid)]
  | (k, v) :: rest, name, wid =>
      if k = name then (k, wid) :: rest else (k, v) :: insertS rest name wid

/-- Number of registry entries stored under `name` (used to state that the
registry never holds two sessions under one name). -/
def keyCount : Registry → String → Nat
  | [], _ => 0
  | (k, _) :: rest, name => (if k = name then 1 else 0) + keyCount rest name

/-- Embedding of the registration step of `ServeRelay` (relay.go lines
240-245): build the new `wsRelayServer` `w` and execute `sockets[name] = w`.
The second component is the list of session identifiers whose stop channel
is signalled during registration; the source performs no prior-session
lookup and sends no stop signal, so it is always empty. -/
def ServeRelayRegister (sockets : Registry) (name : String) (wid : Nat) :
    Registry × List Nat :=
  (insertS sockets name wid, [])

/-- Effects of the teardown tail of `ServeRelay` (relay.go lines 278-284). -/
structure TeardownEffect where
  sockets : Registry
  connClosed : Bool
deriving DecidableEq

/-- Embedding of the teardown tail of `ServeRelay` (relay.go lines 278-284):
after `<-w.stop` fires, the code logs and calls `ws.Close()`.  It does not
touch the `sockets` map, so the registry is returned unchanged; `name` is
not used by this part of the source. -/
def ServeRelayTeardown (sockets : Registry) (_name : String) : TeardownEffect :=
  { sockets := sockets, connClosed := true }

/-- Observable outcome of one `HandleRelayServer` call: whether the lookup
missed, the envelope the call attempted to send (if it got that far), the
identifier of the session whose stop channel was signalled (if any), and the
trace of operations performed on the external response sink. -/
structure ServerBridgeOutcome where
  notFound : Bool
  sentEnvelope : Option request
  stopSignalled : Option Nat
  sinkOps : List WriterOp
deriving DecidableEq

/-- Embedding of `HandleRelayServer` (relay.go lines 294-323).  The
connection transfers are oracles: `sendOk` is whether `websocket.JSON.Send`
succeeds, and `recvResult` is the capture delivered by
`websocket.JSON.Receive` (`none` is a receive error).  On lookup miss, send
error or receive error the call returns with no sink writes and no stop
signal.  With a capture in hand, the source tests `doAccept != nil &&
doAccept(&res)` (relay.go line 314): when that condition holds it logs
"reponse is denied", signals the session stop channel and returns without
writing; otherwise it runs `res.copyTo(w)` on the external sink. -/
def HandleRelayServer (sockets : Registry) (name : String) (r : HttpRequest)
    (sendOk : Bool) (recvResult : Option ResponseWriter)
    (doAccept : Option (ResponseWriter → Bool)) : ServerBridgeOutcome :=
  match lookupS sockets name with
  | none =>
      { notFound := true, sentEnvelope := none, stopSignalled := none, sinkOps := [] }
  | some wsr =>
      let re := fromRequest r none
      if !sendOk then
        { notFound := false, sentEnvelope := some re, stopSignalled := none,
          sinkOps := [] }
      else
        match recvResult with
        | none =>
            { notFound := false, sentEnvelope := some re, stopSignalled := none,
              sinkOps := [] }
        | some res =>
            if (match doAccept with | some p => p res | none => false) then
              { notFound := false, sentEnvelope := some re,
                stopSignalled := some wsr, sinkOps := [] }
            else
              { notFound := false, sentEnvelope := some re, stopSignalled := none,
                sinkOps := res.copyTo }

/-- Outcome of one iteration of the `HandleRelayClient` read loop.
`fatalExit` models `log.Fatal(err)` on a receive error (relay.go line 337),
which terminates the whole process via `os.Exit(1)` — the `continue` after
it is unreachable.  `skip` is a logged conversion error followed by
`continue`; `crashed` is the nil-pointer panic propagating out of
`toRequest`; `replied` carries the capture produced by the local handler and
whether sending it back succeeded. -/
inductive ClientLoopStep where
  | fatalExit (e : String)
  | skip (e : String)
  | crashed
  | replied (w : ResponseWriter) (sendOk : Bool)
deriving DecidableEq

/-- Embedding of one iteration of the read loop of `HandleRelayClient`
(relay.go lines 334-355).  `recv` is the result of `websocket.JSON.Receive`;
`modify` is the optional request-rewrite hook; `serveMux` models
`serveMux.ServeHTTP(&w, re)` as a function from the dispatched request to
the final state of the zero-initialized capture `w`; `sendOk` is whether
`websocket.JSON.Send` of the capture succeeds. -/
def HandleRelayClientStep (recv : Except String request)
    (modify : Option (HttpRequest → HttpRequest))
    (serveMux : HttpRequest → ResponseWriter) (sendOk : Bool) : ClientLoopStep :=
  match recv with
  | Except.error e => ClientLoopStep.fatalExit e
  | Except.ok r =>
      match r.toRequest with
      | ToRequestResult.err e => ClientLoopStep.skip e
      | ToRequestResult.nilDeref => ClientLoopStep.crashed
      | ToRequestResult.ok re =>
          let re := match modify with | some f => f re | none => re
          ClientLoopStep.replied (serveMux re) sendOk

/-- Modelled from the spec: the later-revision request envelope carries a
ping flag (spec section 3, "Ping envelope"); the session writer/heartbeat
task that uses it is code of this repository that is not among the sources
here (only later-revision callers such as `StartServe` appear in the test
snapshots), so the envelope as the heartbeat sees it is modelled from the
words of the spec. -/
structure SpecEnvelope where
  ping : Bool
deriving DecidableEq

/-- Modelled from the spec: liveness outcome of one heartbeat interaction —
whether the stop signal of the session fired and whether the connection was
closed by the ensuing teardown. -/
structure SessionLiveness where
  stopFired : Bool
  connClosed : Bool
deriving DecidableEq

/-- Modelled from the spec: one heartbeat tick of the session
writer/heartbeat task (spec section 4.4), which is missing from the sources
here.  The task sends a ping envelope, then performs a blocking receive
expecting a ping-flagged envelope in reply; any send or receive error, or a
reply that is not ping-flagged, is a liveness failure and triggers the stop
signal, whereupon the blocked registering call closes the connection (spec
section 4.3). -/
def heartbeatTick (sendOk : Bool) (reply : Option SpecEnvelope) : SessionLiveness :=
  if !sendOk then { stopFired := true, connClosed := true }
  else
    match reply with
    | none => { stopFired := true, connClosed := true }
    | some e =>
        if e.ping then { stopFired := false, connClosed := false }
        else { stopFired := true, connClosed := true }

/-- Sample HTTP request used to instantiate the theorems: a plain GET with a
header, an empty body and no stream errors. -/
def sampleHttpRequest : HttpRequest :=
  { method := "GET"
    url := some "http://localhost:1234/hello"
    proto := "HTTP/1.1"
    protoMajor := 1
    protoMinor := 1
    header := [("Accept", ["text/plain"])]
    bodyBytes := []
    bodyReadErr := none
    bodyCloseErr := none
    contentLength := 0
    transferEncoding := []
    close := false
    host := "localhost:1234"
    form := []
    trailer := []
    remoteAddr := "127.0.0.1:5000"
    requestURI := "/" }

/-- Sample captured response: status 200, one header, body "hi". -/
def sampleCapture : ResponseWriter :=
  { Head := [("Content-Type", ["text/plain"])]
    Body := [104, 105]
    StatusCode := 200 }

/-- Sample request envelope carrying a conversion error. -/
def sampleErrEnvelope : request :=
  { Method := "GET"
    URL := some "http://localhost:1234/hello"
    Proto := "HTTP/1.1"
    ProtoMajor := 1
    ProtoMinor := 1
    Header := []
    Body := []
    ContentLength := 0
    TransferEncoding := []
    Close := false
    Host := "localhost:1234"
    Form := []
    Trailer := []
    RemoteAddr := ""
    RequestURI := "/"
    Error := some "boom" }

/-- Sample HTTP request whose body stream reads fully but fails on close. -/
def sampleCloseErrRequest : HttpRequest :=
  { sampleHttpRequest with
    bodyBytes := [111, 107]
    bodyCloseErr := some "close failed" }

/-- Sample HTTP response whose body stream reads fully but fails on close. -/
def sampleCloseErrResponse : HttpResponse :=
  { status := "200 OK"
    statusCode := 200
    proto := "HTTP/1.1"
    protoMajor := 1
    protoMinor := 1
    header := []
    bodyBytes := [111, 107]
    bodyReadErr := none
    bodyCloseErr := some "close failed"
    contentLength := 2
    transferEncoding := []
    close := false
    trailer := []
    request := some sampleHttpRequest }

/-- Request envelope with no carried error and a nil URL, as produced by
decoding a received JSON message that lacks a URL member: every field is the
Go zero value. -/
def nilURLEnvelope : request :=
  { Method := ""
    URL := none
    Proto := ""
    ProtoMajor := 0
    ProtoMinor := 0
    Header := []
    Body := []
    ContentLength := 0
    TransferEncoding := []
    Close := false
    Host := ""
    Form := []
    Trailer := []
    RemoteAddr := ""
    RequestURI := ""
    Error := none }

/-- Looking up the name just assigned by a Go map assignment yields the new
session. -/
theorem lookupS_insertS (reg : Registry) (name : String) (wid : Nat) :
    lookupS (insertS reg name wid) name = some wid := by
  induction reg with
  | nil => simp [insertS, lookupS]
  | cons kv rest ih =>
      obtain ⟨k, v⟩ := kv
      by_cases h : k = name
      · simp [insertS, lookupS, h]
      · simp [insertS, lookupS, h, ih]

/-- A Go map assignment leaves exactly one entry under the assigned name
whenever the registry was well-formed (at most one entry per name). -/
theorem keyCount_insertS (reg : Registry) (name : String) (wid : Nat)
    (h : keyCount reg name ≤ 1) :
    keyCount (insertS reg name wid) name = 1 := by
  induction reg with
  | nil => simp [insertS, keyCount]
  | cons kv rest ih =>
      obtain ⟨k, v⟩ := kv
      by_cases hk : k = name
      · subst hk
        simp [keyCount, insertS] at h ⊢
        omega
      · simp only [keyCount, if_neg hk, zero_add] at h
        simp only [insertS, if_neg hk, keyCount, zero_add]
        exact ih h

/-- Claim C1: the claim states that a rejecting (false) accept predicate
suppresses all sink output and fires the stop signal, while an accepting
(true) predicate replays the capture.  `HandleRelayServer` does the
opposite, because relay.go line 314 tests `doAccept(&res)` instead of its
negation: with a constantly-false predicate the capture is replayed onto the
sink (its body bytes are written) and no stop is signalled, and with a
constantly-true predicate the session is stopped and nothing is written. -/
theorem C1_accept_policy_inverted :
    (HandleRelayServer [("test", 1)] "test" sampleHttpRequest true (some sampleCapture)
        (some (fun _ => false))).stopSignalled = none ∧
    WriterOp.write [104, 105] ∈
      (HandleRelayServer [("test", 1)] "test" sampleHttpRequest true (some sampleCapture)
        (some (fun _ => false))).sinkOps ∧
    (HandleRelayServer [("test", 1)] "test" sampleHttpRequest true (some sampleCapture)
        (some (fun _ => true))).stopSignalled = some 1 ∧
    (HandleRelayServer [("test", 1)] "test" sampleHttpRequest true (some sampleCapture)
        (some (fun _ => true))).sinkOps = [] := by
  refine ⟨rfl, ?_, rfl, rfl⟩
  simp [HandleRelayServer, lookupS, sampleCapture, ResponseWriter.copyTo, headerAddOps]

/-- Claim C2: on a capture whose status code was never set (sentinel 0), the
replay trace of `copyTo` begins with an unconditional status write
(`WriteHeader 0`), followed by the body, followed by the header copies — the
reverse of the claimed header-before-status-before-body order, and a status
write is forced even though no status was recorded. -/
theorem C2_copyTo_status_first_unconditional :
    ResponseWriter.copyTo
        { Head := [("Content-Type", ["text/plain"])], Body := [111, 107], StatusCode := 0 } =
      [WriterOp.writeHeader 0, WriterOp.write [111, 107],
       WriterOp.addHeader "Content-Type" "text/plain"] := rfl

/-- Claim C3, counterexample: with session 1 already registered under "test",
registering session 2 under "test" signals no stop at all — in particular
the existing session 1 is not stopped, contrary to the claim. -/
theorem C3_register_does_not_stop_prior :
    lookupS [("test", 1)] "test" = some 1 ∧
    (ServeRelayRegister [("test", 1)] "test" 2).2 = [] ∧
    1 ∉ (ServeRelayRegister [("test", 1)] "test" 2).2 := by
  refine ⟨rfl, rfl, by decide⟩

/-- Claim C3, amended: registering a session under a name installs the new
session as the sole registry entry for that name (the registry never holds
two entries under one name once the replacement completes, given it held at
most one before), but the registration signals no stop on the previously
registered session. -/
theorem C3_register_replaces_entry (sockets : Registry) (name : String) (wid : Nat)
    (h : keyCount sockets name ≤ 1) :
    lookupS (ServeRelayRegister sockets name wid).1 name = some wid ∧
    (ServeRelayRegister sockets name wid).2 = [] ∧
    keyCount (ServeRelayRegister sockets name wid).1 name = 1 :=
  ⟨lookupS_insertS sockets name wid, rfl, keyCount_insertS sockets name wid h⟩

/-- Claim C3, witness for the amended theorem at a concrete registry. -/
theorem C3_register_replaces_entry_witness :
    lookupS (ServeRelayRegister [("test", 1)] "test" 2).1 "test" = some 2 ∧
    (ServeRelayRegister [("test", 1)] "test" 2).2 = [] ∧
    keyCount (ServeRelayRegister [("test", 1)] "test" 2).1 "test" = 1 :=
  C3_register_replaces_entry [("test", 1)] "test" 2 (by decide)

/-- Claim C4: in the spec-modelled heartbeat tick, if no ping reply is
received, or the reply envelope is not ping-flagged, then the stop signal of
the session fires and the connection is closed. -/
theorem C4_heartbeat_failure_stops (sendOk : Bool) (reply : Option SpecEnvelope)
    (h : reply = none ∨ reply = some { ping := false }) :
    (heartbeatTick sendOk reply).stopFired = true ∧
    (heartbeatTick sendOk reply).connClosed = true := by
  rcases h with h | h <;> subst h <;> cases sendOk <;> simp [heartbeatTick]

/-- Claim C4, witness: a missed ping reply on a healthy send. -/
theorem C4_heartbeat_failure_stops_witness :
    ((none : Option SpecEnvelope) = none ∨
      (none : Option SpecEnvelope) = some { ping := false }) ∧
    (heartbeatTick true none).stopFired = true ∧
    (heartbeatTick true none).connClosed = true :=
  ⟨Or.inl rfl, C4_heartbeat_failure_stops true none (Or.inl rfl)⟩

/-- Claim C5, counterexample: with session 1 registered under "test", the
teardown tail of `ServeRelay` closes the connection but leaves the registry
unchanged — the entry for "test" is still present afterwards, contrary to
the claim that teardown removes it. -/
theorem C5_teardown_keeps_entry :
    (ServeRelayTeardown [("test", 1)] "test").connClosed = true ∧
    (ServeRelayTeardown [("test", 1)] "test").sockets = [("test", 1)] ∧
    lookupS (ServeRelayTeardown [("test", 1)] "test").sockets "test" = some 1 :=
  ⟨rfl, rfl, rfl⟩

/-- Claim C5, amended: when the stop signal fires, the blocked `ServeRelay`
call closes the connection before returning but does not remove the registry
entry for the name; the registry is left exactly as it was. -/
theorem C5_teardown_closes_without_removal (sockets : Registry) (name : String) :
    (ServeRelayTeardown sockets name).connClosed = true ∧
    (ServeRelayTeardown sockets name).sockets = sockets :=
  ⟨rfl, rfl⟩

/-- Claim C6: a receive error in the `HandleRelayClient` read loop does not
terminate the loop with a closure report — it produces a process-fatal exit
(`log.Fatal`, relay.go line 337), modelled by the `fatalExit` outcome. -/
theorem C6_receive_error_fatal :
    HandleRelayClientStep (Except.error "unexpected EOF") none
        (fun _ => { Head := [], Body := [], StatusCode := 0 }) true =
      ClientLoopStep.fatalExit "unexpected EOF" := rfl

/-- Claim C7: for a request whose body is fully buffered without read or
close errors, whose URL is non-nil and survives `url.Parse` of its own
serialization, the round trip `toRequest` after `fromRequest` succeeds and
reproduces method, URL, header multimap, body bytes, content length,
transfer-encoding list, close flag, host, form values, trailer multimap,
remote address and request URI exactly. -/
theorem C7_roundtrip (r : HttpRequest) (u : String)
    (h1 : r.url = some u) (h2 : r.bodyReadErr = none) (h3 : r.bodyCloseErr = none)
    (h4 : urlParse u = some u) :
    ∃ re : HttpRequest,
      (fromRequest r none).toRequest = ToRequestResult.ok re ∧
      re.method = r.method ∧ re.url = r.url ∧ re.header = r.header ∧
      re.bodyBytes = r.bodyBytes ∧ re.contentLength = r.contentLength ∧
      re.transferEncoding = r.transferEncoding ∧ re.close = r.close ∧
      re.host = r.host ∧ re.form = r.form ∧ re.trailer = r.trailer ∧
      re.remoteAddr = r.remoteAddr ∧ re.requestURI = r.requestURI := by
  have hfe : fromRequest r none =
      { Method := r.method, URL := some u, Proto := r.proto,
        ProtoMajor := r.protoMajor, ProtoMinor := r.protoMinor,
        Header := r.header, Body := r.bodyBytes, ContentLength := r.contentLength,
        TransferEncoding := r.transferEncoding, Close := r.close, Host := r.host,
        Form := r.form, Trailer := r.trailer, RemoteAddr := r.remoteAddr,
        RequestURI := r.requestURI, Error := none } := by
    simp [fromRequest, h1, h2, h3]
  rw [hfe]
  refine ⟨{ method := r.method, url := some u, proto := r.proto,
            protoMajor := r.protoMajor, protoMinor := r.protoMinor,
            header := r.header, bodyBytes := r.bodyBytes, bodyReadErr := none,
            bodyCloseErr := none, contentLength := r.contentLength,
            transferEncoding := r.transferEncoding, close := r.close,
            host := r.host, form := r.form, trailer := r.trailer,
            remoteAddr := r.remoteAddr, requestURI := r.requestURI }, ?_, rfl,
          h1.symm, rfl, rfl, rfl, rfl, rfl, rfl, rfl, rfl, rfl, rfl⟩
  simp [request.toRequest, NewRequest, h4]

/-- Claim C7, witness at the sample GET request. -/
theorem C7_roundtrip_witness :
    ∃ re : HttpRequest,
      (fromRequest sampleHttpRequest none).toRequest = ToRequestResult.ok re ∧
      re.method = sampleHttpRequest.method ∧ re.url = sampleHttpRequest.url ∧
      re.header = sampleHttpRequest.header ∧
      re.bodyBytes = sampleHttpRequest.bodyBytes ∧
      re.contentLength = sampleHttpRequest.contentLength ∧
      re.transferEncoding = sampleHttpRequest.transferEncoding ∧
      re.close = sampleHttpRequest.close ∧
      re.host = sampleHttpRequest.host ∧ re.form = sampleHttpRequest.form ∧
      re.trailer = sampleHttpRequest.trailer ∧
      re.remoteAddr = sampleHttpRequest.remoteAddr ∧
      re.requestURI = sampleHttpRequest.requestURI :=
  C7_roundtrip sampleHttpRequest "http://localhost:1234/hello" rfl rfl rfl (by decide)

/-- Claim C8: an envelope whose carried `Error` is non-nil is never converted
to a request — `toRequest` fails immediately with exactly that error, and
the error outcome carries no request object. -/
theorem C8_carried_error_propagates (r : request) (e : String) (h : r.Error = some e) :
    r.toRequest = ToRequestResult.err e := by
  unfold request.toRequest
  rw [h]

/-- Claim C8, witness at an envelope carrying the error "boom". -/
theorem C8_carried_error_propagates_witness :
    sampleErrEnvelope.toRequest = ToRequestResult.err "boom" :=
  C8_carried_error_propagates sampleErrEnvelope "boom" rfl

/-- Claim C9: the request direction stores a body-close failure on the
envelope, but the response direction does not — for a response whose body
close fails with "close failed", `fromResponse` leaves the envelope error
nil (relay.go line 155 stores the read error variable instead of the close
error), so the failure never surfaces when the envelope is consumed. -/
theorem C9_response_close_error_dropped :
    sampleCloseErrRequest.bodyCloseErr = some "close failed" ∧
    (fromRequest sampleCloseErrRequest none).Error = some "close failed" ∧
    sampleCloseErrResponse.bodyCloseErr = some "close failed" ∧
    (fromResponse sampleCloseErrResponse none).Error = none :=
  ⟨rfl, rfl, rfl, rfl⟩

/-- Claim C10: an envelope with nil carried error and nil URL — exactly what
decoding a received JSON message without a URL member produces — makes
`toRequest` dereference the nil URL pointer instead of returning an error,
and the client read loop crashes on it when such a message arrives. -/
theorem C10_nil_url_deref :
    nilURLEnvelope.Error = none ∧ nilURLEnvelope.URL = none ∧
    nilURLEnvelope.toRequest = ToRequestResult.nilDeref ∧
    HandleRelayClientStep (Except.ok nilURLEnvelope) none
        (fun _ => { Head := [], Body := [], StatusCode := 0 }) true =
      ClientLoopStep.crashed :=
  ⟨rfl, rfl, rfl, rfl⟩

end Relay
